import Mathlib

/-!
# Verification of the policyengine-taxsim mapping core

A shallow embedding, in Lean 4, of the data model and operations of the
policyengine-taxsim repository that the specification's claims are about:

* `core/utils.py` — the state-code registry (`STATE_MAPPING`, `get_state_code`,
  `SOI_TO_FIPS_MAP`), ordinal naming (`get_ordinal`) and the legacy TAXSIM32
  dependent-count conversion (`convert_taxsim32_dependents`);
* `core/input_mapper.py` — the entity-graph builder
  (`form_household_situation`) and the income-splitting catalog application
  (`add_additional_units`);
* `core/output_mapper.py` — the single-record extraction error handling
  (`simulate`);
* `runners/policyengine_runner.py` — the vectorized person-level batch
  construction (`_process_person_data_for_year`) and the vectorized
  extraction error handling (`_extract_vectorized_results`);
* `runners/base_runner.py` — input validation (`BaseTaxRunner._validate_input`);
* `runners/stitched_runner.py` — year-routed batch processing and re-assembly
  in original record order (`StitchedRunner.run`).

Modelling conventions: Python ints are `Int`, Python floats (dollar amounts)
are `Rat` (the code performs no floating-point-specific operations on the
paths verified here), Python `dict` fields that may be absent or `None` are
`Option` values.  Where the distinction between "key absent" and "key present
with value `None`" matters to the source (the `dep13`/`dep17`/`dep18`
presence test of `convert_taxsim32_dependents`), the field is modelled as
`Option (Option Int)`: the outer layer is key presence, the inner layer
distinguishes `None` from an actual number.
-/

namespace PETaxsim

/-! ## State Code Registry (`core/utils.py`, `STATE_MAPPING` / `get_state_code` /
`get_state_number` / `SOI_TO_FIPS_MAP`) -/

/-- `STATE_MAPPING` from `core/utils.py` lines 15-67: TAXSIM (SOI) numeric
state code → two-letter state abbreviation. -/
def STATE_MAPPING : List (Int × String) :=
  [(1, "AL"), (2, "AK"), (3, "AZ"), (4, "AR"), (5, "CA"), (6, "CO"), (7, "CT"),
   (8, "DE"), (9, "DC"), (10, "FL"), (11, "GA"), (12, "HI"), (13, "ID"),
   (14, "IL"), (15, "IN"), (16, "IA"), (17, "KS"), (18, "KY"), (19, "LA"),
   (20, "ME"), (21, "MD"), (22, "MA"), (23, "MI"), (24, "MN"), (25, "MS"),
   (26, "MO"), (27, "MT"), (28, "NE"), (29, "NV"), (30, "NH"), (31, "NJ"),
   (32, "NM"), (33, "NY"), (34, "NC"), (35, "ND"), (36, "OH"), (37, "OK"),
   (38, "OR"), (39, "PA"), (40, "RI"), (41, "SC"), (42, "SD"), (43, "TN"),
   (44, "TX"), (45, "UT"), (46, "VT"), (47, "VA"), (48, "WA"), (49, "WV"),
   (50, "WI"), (51, "WY")]

/-- `get_state_code` (`core/utils.py` lines 70-73): convert a numeric state
code to a two-letter abbreviation, defaulting to Texas (`"TX"`) for invalid
codes, including 0.  `dict.get(key, default)` is modelled by association-list
lookup with a default. -/
def get_state_code (state_number : Int) : String :=
  (STATE_MAPPING.lookup state_number).getD "TX"

/-- `get_state_number` (`core/utils.py` lines 76-79): reverse lookup,
returning 0 for invalid state abbreviations. -/
def get_state_number (state_code : String) : Int :=
  ((STATE_MAPPING.map (fun p => (p.2, p.1))).lookup state_code).getD 0

/-- `SOI_TO_FIPS_MAP` from `core/utils.py` lines 227-279: TAXSIM SOI state
code → FIPS state code. -/
def SOI_TO_FIPS_MAP : List (Int × Int) :=
  [(1, 1), (2, 2), (3, 4), (4, 5), (5, 6), (6, 8), (7, 9), (8, 10), (9, 11),
   (10, 12), (11, 13), (12, 15), (13, 16), (14, 17), (15, 18), (16, 19),
   (17, 20), (18, 21), (19, 22), (20, 23), (21, 24), (22, 25), (23, 26),
   (24, 27), (25, 28), (26, 29), (27, 30), (28, 31), (29, 32), (30, 33),
   (31, 34), (32, 35), (33, 36), (34, 37), (35, 38), (36, 39), (37, 40),
   (38, 41), (39, 42), (40, 44), (41, 45), (42, 46), (43, 47), (44, 48),
   (45, 49), (46, 50), (47, 51), (48, 53), (49, 54), (50, 55), (51, 56)]

/-- The compact-to-federal (SOI-to-FIPS) translation as used at
`runners/policyengine_runner.py` lines 710-715:
`SOI_TO_FIPS_MAP.get(int(float(s)), 6)` — unmapped compact codes fall back
to the fixed default federal code 6 (California). -/
def soi_to_fips (soi_code : Int) : Int :=
  (SOI_TO_FIPS_MAP.lookup soi_code).getD 6

/-! ## Ordinal naming (`core/utils.py`, `get_ordinal`) -/

/-- `get_ordinal` (`core/utils.py` lines 209-222). -/
def get_ordinal (n : Nat) : String :=
  match n with
  | 1 => "first"
  | 2 => "second"
  | 3 => "third"
  | 4 => "fourth"
  | 5 => "fifth"
  | 6 => "sixth"
  | 7 => "seventh"
  | 8 => "eighth"
  | 9 => "ninth"
  | 10 => "tenth"
  | _ => toString n ++ "th"

/-! ## Legacy TAXSIM32 dependent-count conversion
(`core/utils.py`, `convert_taxsim32_dependents`, lines 98-206) -/

/-- The slice of a TAXSIM input record read and written by
`convert_taxsim32_dependents`.  `ages` holds the `age1` … `age11` slots in
order (the function only ever touches slots 1-11); a `none` entry is an
absent (or `None`-valued) slot. -/
structure Dep32Vars where
  dep13 : Option (Option Int) := none
  dep17 : Option (Option Int) := none
  dep18 : Option (Option Int) := none
  depx : Option Int := none
  ages : List (Option Int) := List.replicate 11 none
deriving Repr, DecidableEq

/-- `'dep13' in taxsim_vars or 'dep17' in taxsim_vars or 'dep18' in
taxsim_vars` (`core/utils.py` line 119): presence check only. -/
def hasTaxsim32Fields (v : Dep32Vars) : Bool :=
  v.dep13.isSome || v.dep17.isSome || v.dep18.isSome

/-- `any(f'age{i}' in taxsim_vars and taxsim_vars[f'age{i}'] is not None for
i in range(1, 12))` (`core/utils.py` lines 123-126). -/
def hasIndividualAgeFields (v : Dep32Vars) : Bool :=
  v.ages.any (fun a => a.isSome)

/-- `int(taxsim_vars.get(k, 0) or 0)` for the `dep13`/`dep17`/`dep18` keys:
absent → 0, present-`None` → 0, otherwise the value (`0 or 0` is also 0). -/
def depVal (x : Option (Option Int)) : Int :=
  (x.join).getD 0

/-- Sequential assignment of derived ages into the `age1` … slots: the Python
loops write `taxsim_vars[f'age{dep_counter}'] = v` for successive counters,
capped at slot 11 (`core/utils.py` lines 161-185).  Values beyond the
available slots are dropped; slots beyond the supplied values keep their
previous contents. -/
def writeAges : List (Option Int) → List Int → List (Option Int)
  | [], _ => []
  | l, [] => l
  | _ :: rest, v :: vrest => some v :: writeAges rest vrest

/-- The derived-age sequence (`core/utils.py` lines 141-150 and 159-185):
`n13` ages of 10, then `n15` ages of 15, then `n17` ages of 17, then `n21`
ages of 21 for adult dependents. -/
def bracketAgeList (n13 n15 n17 n21 : Nat) : List Int :=
  List.replicate n13 10 ++ List.replicate n15 15 ++
    List.replicate n17 17 ++ List.replicate n21 21

/-- The trailing normalization (`core/utils.py` lines 187-204): an age slot
that is present and equal to 0 becomes 10; absent slots are untouched.
(The NaN case concerns floating-point inputs, which this integer model does
not carry; it maps to the same result, 10.) -/
def normAge (a : Option Int) : Option Int :=
  match a with
  | none => none
  | some x => if x = 0 then some 10 else some x

/-- The full derived-age value sequence of one conversion run
(`core/utils.py` lines 136-150): per-bracket counts obtained by subtracting
the cumulative counts (a negative count yields an empty Python `range`,
modelled by `Int.toNat`), capped at the 11 available slots. -/
def convertVals (v : Dep32Vars) : List Int :=
  (bracketAgeList (depVal v.dep13).toNat
    (depVal v.dep17 - depVal v.dep13).toNat
    (depVal v.dep18 - depVal v.dep17).toNat
    (v.depx.getD 0 - depVal v.dep18).toNat).take 11

/-- `convert_taxsim32_dependents` (`core/utils.py` lines 98-206).  The
derivation runs only when some TAXSIM32 bracket-count field is present and
no individual age field is set; it raises `depx` to at least `dep18`
(lines 152-157) and writes the derived ages into the age slots sequentially
(lines 159-185).  The 0-to-10 age normalization then runs unconditionally
(lines 187-204). -/
def convert_taxsim32_dependents (v : Dep32Vars) : Dep32Vars :=
  let v1 :=
    if hasTaxsim32Fields v && !hasIndividualAgeFields v then
      { v with depx := some (max (v.depx.getD 0) (depVal v.dep18)),
               ages := writeAges v.ages (convertVals v) }
    else v
  { v1 with ages := v1.ages.map normAge }

/-! ## Entity Graph Builder (`core/input_mapper.py`, `form_household_situation`,
lines 127-231)

The embedding covers the household-structure core of
`form_household_situation`: membership lists of the grouping entities,
marital-unit structure, and the per-person attributes set at lines 170-193
(age, employment income, tax-unit role flags).  The subsequent
`add_additional_units` application and the benefit-program zero-overrides
(lines 195-229) only add variable entries to already-existing people and
units — they never add or remove people, members, or marital units — and are
embedded separately below (`applyIncomeEntry`).  A role flag the source
leaves unset is modelled as `false`, which is what the downstream engine
reads for an unset boolean variable. -/

/-- The fields of a (defaulted, TAXSIM32-converted) flat record read by
`form_household_situation`.  `mstat` and `depx` are read unconditionally
(`generate_household` guarantees them present via `set_taxsim_defaults`);
the remaining fields go through `dict.get`, hence `Option`.  `ages` lists
the `age1` … `age11` slots. -/
structure GraphVars where
  mstat : Int
  depx : Int
  page : Option Int := none
  sage : Option Int := none
  pwages : Option Rat := none
  swages : Option Rat := none
  ages : List (Option Int) := List.replicate 11 none
deriving Repr, DecidableEq

/-- `taxsim_vars.get(f"age{i}")` for 1-based dependent index `i`. -/
def GraphVars.ageAt (tv : GraphVars) (i : Nat) : Option Int :=
  (tv.ages.getD (i - 1) none)

/-- Python `x or d` on an optional integer: `None` and 0 both give the
default (used for `page`/`sage` at lines 173 and 180). -/
def orElseFalsy (x : Option Int) (d : Int) : Int :=
  match x with
  | none => d
  | some v => if v = 0 then d else v

/-- The name `"your <ordinal> dependent"` of the `i`-th dependent (1-based),
as built at `core/input_mapper.py` line 143. -/
def depName (i : Nat) : String :=
  "your " ++ get_ordinal i ++ " dependent"

/-- Identifier of a marital-unit dictionary key: `"your marital unit"` or
`"your <ordinal> dependent" + "s marital unit"` (the possessive suffix is
abstracted into the constructor). -/
inductive MaritalUnitName where
  | primaryUnit : MaritalUnitName
  | dependentUnit : String → MaritalUnitName
deriving Repr, DecidableEq

/-- One marital-unit entry: its key, its `members` list, and the
`marital_unit_id` year-value when one is set (only dependent units set it,
line 161). -/
structure MaritalUnit where
  name : MaritalUnitName
  members : List String
  marital_unit_id : Option Int
deriving Repr, DecidableEq

/-- One entry of the `people` dictionary with the attributes set at
`core/input_mapper.py` lines 172-193.  An unset role flag is `false`. -/
structure PersonEntry where
  name : String
  age : Int
  employment_income : Rat
  is_tax_unit_head : Bool
  is_tax_unit_spouse : Bool
  is_tax_unit_dependent : Bool
deriving Repr, DecidableEq

/-- The structural content of the built situation: the four grouping-entity
membership lists, the marital units, the people (in insertion order), and
the household state name. -/
structure HouseholdSituation where
  familiesMembers : List String
  householdsMembers : List String
  taxUnitsMembers : List String
  spmUnitsMembers : List String
  maritalUnits : List MaritalUnit
  people : List PersonEntry
  state_name : String
deriving Repr, DecidableEq

/-- The joint/single member list `["you", "your partner"] if mstat == 2 else
["you"]` (lines 137-140 and 151-166). -/
def coupleMembers (mstat : Int) : List String :=
  if mstat = 2 then ["you", "your partner"] else ["you"]

/-- The positional dependent names `"your first dependent"`, … (lines
142-143). -/
def dependentNames (depx : Int) : List String :=
  (List.range depx.toNat).map (fun i => depName (i + 1))

/-- `form_household_situation` (`core/input_mapper.py` lines 127-231),
restricted to the structure described above.  Mirrors, in order: member-list
construction (lines 134-149), marital-unit construction (lines 151-166),
state name (line 168), and the people dictionary (lines 170-193). -/
def form_household_situation (year : Int) (state : String) (tv : GraphVars) :
    HouseholdSituation :=
  let members := coupleMembers tv.mstat ++ dependentNames tv.depx
  let maritalUnits :=
    if 0 < tv.depx then
      { name := MaritalUnitName.primaryUnit,
        members := coupleMembers tv.mstat,
        marital_unit_id := none } ::
      (List.range tv.depx.toNat).map (fun i =>
        { name := MaritalUnitName.dependentUnit (depName (i + 1)),
          members := [depName (i + 1)],
          marital_unit_id := some ((i : Int) + 1) })
    else
      [{ name := MaritalUnitName.primaryUnit,
         members := coupleMembers tv.mstat,
         marital_unit_id := none }]
  let you : PersonEntry :=
    { name := "you",
      age := orElseFalsy tv.page 40,
      employment_income := tv.pwages.getD 0,
      is_tax_unit_head := true,
      is_tax_unit_spouse := false,
      is_tax_unit_dependent := false }
  let partner : PersonEntry :=
    { name := "your partner",
      age := orElseFalsy tv.sage 40,
      employment_income := tv.swages.getD 0,
      is_tax_unit_head := false,
      is_tax_unit_spouse := true,
      is_tax_unit_dependent := false }
  let deps : List PersonEntry :=
    (List.range tv.depx.toNat).map (fun i =>
      { name := depName (i + 1),
        age := (tv.ageAt (i + 1)).getD 10,
        employment_income := 0,
        is_tax_unit_head := false,
        is_tax_unit_spouse := false,
        is_tax_unit_dependent := true })
  { familiesMembers := members,
    householdsMembers := members,
    taxUnitsMembers := members,
    spmUnitsMembers := members,
    maritalUnits := maritalUnits,
    people := (if tv.mstat = 2 then [you, partner] else [you]) ++ deps,
    state_name := state }

/-! ## Income splitting (`core/input_mapper.py`, `add_additional_units`,
lines 10-124)

The person-level half of `add_additional_units` walks the catalog's
`additional_income_units` entries (field → list of TAXSIM source variables)
and writes person-level income values, splitting the listed categories
evenly between the spouses of a joint filer.  The flat record is modelled as
an association list from TAXSIM variable names to amounts, and a person's
written income fields likewise. -/

/-- `income_types_to_split` (`core/input_mapper.py` lines 27-35). -/
def income_types_to_split : List String :=
  ["taxable_interest_income", "qualified_dividend_income",
   "long_term_capital_gains", "partnership_s_corp_income",
   "taxable_private_pension_income", "short_term_capital_gains",
   "social_security_retirement"]

/-- The person-level state written by the `additional_income_units` loop:
the income fields of `people_unit["you"]` and, when the situation has one,
of `people_unit["your partner"]`.  A `none` partner is a situation whose
`people` dictionary has no `"your partner"` key. -/
structure PeopleIncome where
  you : List (String × Rat)
  partner : Option (List (String × Rat))
deriving Repr, DecidableEq

/-- Write (or overwrite) one field of a person's income dictionary. -/
def setField (fields : List (String × Rat)) (key : String) (value : Rat) :
    List (String × Rat) :=
  match fields with
  | [] => [(key, value)]
  | (k, v) :: rest =>
      if k = key then (k, value) :: rest else (k, v) :: setField rest key value

/-- Set a field on `"you"`. -/
def PeopleIncome.setYou (s : PeopleIncome) (key : String) (value : Rat) :
    PeopleIncome :=
  { s with you := setField s.you key value }

/-- Set a field on `"your partner"` (no-op when the situation has no
partner, mirroring the `"your partner" in people_unit` guards). -/
def PeopleIncome.setPartner (s : PeopleIncome) (key : String) (value : Rat) :
    PeopleIncome :=
  { s with partner := s.partner.map (fun p => setField p key value) }

/-- One iteration of the `additional_income_units` loop of
`add_additional_units` (`core/input_mapper.py` lines 67-122) applied to the
catalog entry `(field, values)`:
* an empty `values` list is skipped (lines 69-70);
* `self_employment_income` is assigned per person from `psemp`/`ssemp`
  (lines 72-78), `unemployment_compensation` from `pui`/`sui` (lines 80-86);
* a multi-variable entry sums the sources present in the record
  (lines 88-107), a single-variable entry reads its source if present
  (lines 109-122); in both cases the resulting amount is split evenly
  between the spouses when the filer is married-filing-jointly (`mstat == 2`),
  the situation has a partner, and the field is in `income_types_to_split`;
  otherwise it is assigned entirely to `"you"`. -/
def applyIncomeEntry (mstat : Int) (taxsimVars : List (String × Rat))
    (field : String) (values : List String) (s : PeopleIncome) :
    PeopleIncome :=
  let is_married_filing_jointly := mstat = 2
  if values = [] then s
  else if field = "self_employment_income" then
    let s1 :=
      match taxsimVars.lookup "psemp" with
      | some v => s.setYou field v
      | none => s
    match s1.partner, taxsimVars.lookup "ssemp" with
    | some _, some v => s1.setPartner field v
    | _, _ => s1
  else if field = "unemployment_compensation" then
    let s1 :=
      match taxsimVars.lookup "pui" with
      | some v => s.setYou field v
      | none => s
    match s1.partner, taxsimVars.lookup "sui" with
    | some _, some v => s1.setPartner field v
    | _, _ => s1
  else if 1 < values.length then
    let matching := values.filterMap (fun v => taxsimVars.lookup v)
    if matching = [] then s
    else
      let total := matching.sum
      if is_married_filing_jointly ∧ s.partner.isSome ∧
          field ∈ income_types_to_split then
        (s.setYou field (total / 2)).setPartner field (total / 2)
      else
        s.setYou field total
  else
    match values with
    | [v0] =>
        match taxsimVars.lookup v0 with
        | some total =>
            if is_married_filing_jointly ∧ s.partner.isSome ∧
                field ∈ income_types_to_split then
              (s.setYou field (total / 2)).setPartner field (total / 2)
            else
              s.setYou field total
        | none => s
    | _ => s

/-! ## Vectorized Batch Constructor
(`runners/policyengine_runner.py`, `TaxsimMicrosimDataset.
_process_person_data_for_year`, lines 340-484)

The vectorized path derives the person-level arrays of a one-year batch
from record-level columns.  The numpy formulation (cumulative offsets,
`np.repeat`, boolean masks) is embedded at the level of the per-person
values it computes: `household_ids = np.repeat(arange(n), people_per_hh)`
is the concatenation over records of `people_per_hh r` copies of the record
index, `position_in_hh` the concatenation of `range (people_per_hh r)`, and
the role masks compare positions.  The batch rows are the same
(defaulted) flat records the graph builder consumes, so the equivalence
claim can be stated record-for-record. -/

/-- `has_spouse = np.isin(mstat, [2, 6])` (line 352). -/
def vec_has_spouse (mstat : Int) : Bool :=
  mstat = 2 || mstat = 6

/-- `people_per_hh = 1 + has_spouse.astype(int) + depx` (line 353). -/
def vec_people_per_hh (tv : GraphVars) : Nat :=
  1 + (if vec_has_spouse tv.mstat then 1 else 0) + tv.depx.toNat

/-- `total_people = people_per_hh.sum()` (line 354). -/
def vec_total_people (records : List GraphVars) : Nat :=
  (records.map vec_people_per_hh).sum

/-- `household_ids = np.repeat(np.arange(n), people_per_hh)` (line 357):
the record index of each person row. -/
def vec_person_household_ids (records : List GraphVars) : List Nat :=
  (records.enum.map (fun p => List.replicate (vec_people_per_hh p.2) p.1)).flatten

/-- `position_in_hh` (lines 364-369): each person row's 0-based position
within its record's person range. -/
def vec_position_in_hh (records : List GraphVars) : List Nat :=
  (records.map (fun r => List.range (vec_people_per_hh r))).flatten

/-- The `(is_primary, is_spouse, is_dependent)` role triple of the person at
position `pos` of a record (lines 374-376): primary at position 0, spouse at
position 1 when the record has one, dependent otherwise. -/
def vec_role (hasSpouse : Bool) (pos : Nat) : Bool × Bool × Bool :=
  let is_primary := pos = 0
  let is_spouse := pos = 1 && hasSpouse
  (is_primary, is_spouse, !is_primary && !is_spouse)

/-- The concatenated role arrays of the batch. -/
def vec_roles (records : List GraphVars) : List (Bool × Bool × Bool) :=
  (records.map (fun r =>
    (List.range (vec_people_per_hh r)).map
      (vec_role (vec_has_spouse r.mstat)))).flatten

/-- The Entity Graph Builder's per-record person counts, concatenated —
the reference against which `_process_person_data_for_year` is specified
(spec §4.5: "equivalent to invoking the Entity Graph Builder once per record
and concatenating the results"). -/
def graph_concat_person_count (year : Int) (state : String)
    (records : List GraphVars) : Nat :=
  (records.map (fun tv =>
    (form_household_situation year state tv).people.length)).sum

/-- The concatenation of the graph builder's per-record person rows tagged
with their record index — the per-person membership array of the
concatenated graphs. -/
def graph_concat_household_ids (year : Int) (state : String)
    (records : List GraphVars) : List Nat :=
  (records.enum.map (fun p =>
    List.replicate (form_household_situation year state p.2).people.length
      p.1)).flatten

/-! ## Output-extraction error handling

Two code paths compute a target variable from the engine:

* single-record: `simulate` (`core/output_mapper.py` lines 307-311) wraps
  `simulation.calculate` in `try/except Exception: return 0.00`;
* vectorized: `PolicyEngineRunner._extract_vectorized_results`
  (`runners/policyengine_runner.py` lines 1087-1098) catches an exception,
  zeroes the column when the message contains `"does not exist"` or
  `"was not found"`, and re-raises (`raise RuntimeError ... from e`)
  otherwise.

An engine computation is modelled as an `Except EngineError` value; the
error constructors partition exception messages by the two substring tests
the vectorized path performs. -/

/-- An exception escaping `simulation.calculate`, classified by the message
substring tests at `runners/policyengine_runner.py` lines 1089 and 1096:
`doesNotExist` and `wasNotFound` carry messages containing the respective
substring (the unmapped-variable case); `other` is any other exception. -/
inductive EngineError where
  | doesNotExist : String → EngineError
  | wasNotFound : String → EngineError
  | other : String → EngineError
deriving Repr, DecidableEq

/-- `"does not exist" in err_msg or "was not found" in err_msg`
(`runners/policyengine_runner.py` line 1089). -/
def isMissingVariableError : EngineError → Bool
  | EngineError.doesNotExist _ => true
  | EngineError.wasNotFound _ => true
  | EngineError.other _ => false

/-- Round half to even, as Python's built-in `round` does on the exact
value. -/
def roundHalfEven (x : Rat) : Int :=
  let f := ⌊x⌋
  let frac := x - f
  if frac < 1 / 2 then f
  else if 1 / 2 < frac then f + 1
  else if f % 2 = 0 then f else f + 1

/-- `to_roundedup_number` (`core/utils.py` lines 91-95): `round(value, 2)`. -/
def to_roundedup_number (x : Rat) : Rat :=
  (roundHalfEven (x * 100) : Rat) / 100

/-- `simulate` (`core/output_mapper.py` lines 307-311): the rounded computed
value, with EVERY exception — missing-variable or genuine failure alike —
caught and converted to `0.00`. -/
def simulate (calcResult : Except EngineError Rat) : Rat :=
  match calcResult with
  | Except.ok v => to_roundedup_number v
  | Except.error _ => 0

/-- `simulate_multiple` (`core/output_mapper.py` lines 314-322): the rounded
sum of the computed variables; one `try/except` wraps the whole sum, so any
exception zeroes the total. -/
def simulate_multiple (calcs : List (Except EngineError Rat)) : Rat :=
  match calcs.mapM (fun c => c.toOption) with
  | some vs => to_roundedup_number ((vs.map to_roundedup_number).sum)
  | none => to_roundedup_number 0

/-- The per-variable error handling of
`PolicyEngineRunner._extract_vectorized_results`
(`runners/policyengine_runner.py` lines 1087-1098): a computed column is
rounded to 2 decimals; an exception whose message marks a missing variable
yields a zero column of length `n`; any other exception is re-raised
(wrapped in a `RuntimeError`, modelled by propagating the error). -/
def extract_variable_vectorized (n : Nat)
    (calcResult : Except EngineError (List Rat)) : Except EngineError (List Rat) :=
  match calcResult with
  | Except.ok arr => Except.ok (arr.map to_roundedup_number)
  | Except.error e =>
      if isMissingVariableError e then Except.ok (List.replicate n 0)
      else Except.error e

/-! ## Batch-runner input validation
(`runners/base_runner.py`, `BaseTaxRunner.__init__` / `_validate_input`,
lines 14-39)

Every runner class (`PolicyEngineRunner`, `TaxsimRunner`, `StitchedRunner`)
invokes this base constructor before any processing.  A DataFrame is
modelled by its column list and its rows (association lists from column
name to value; in a well-formed frame every row has every column). -/

/-- The input DataFrame, as far as validation reads it. -/
structure InputFrame where
  columns : List String
  rows : List (List (String × Int))
deriving Repr, DecidableEq

/-- The taxsimid column values, row by row. -/
def InputFrame.taxsimids (df : InputFrame) : List Int :=
  df.rows.map (fun r => (r.lookup "taxsimid").getD 0)

/-- The errors the constructor can raise. -/
inductive RunnerInitError where
  | emptyInput : RunnerInitError
  | missingIdColumn : RunnerInitError
  | duplicateIds : RunnerInitError
deriving Repr, DecidableEq

/-- `BaseTaxRunner.__init__` + `_validate_input`
(`runners/base_runner.py` lines 14-39), in source order: reject an empty
frame (`len(input_df) == 0`), then a frame without a `taxsimid` column,
then duplicated `taxsimid` values (`duplicated().any()`, i.e. the id list
is not duplicate-free). -/
def initRunner (df : InputFrame) : Except RunnerInitError InputFrame :=
  if df.rows.length = 0 then Except.error RunnerInitError.emptyInput
  else if "taxsimid" ∉ df.columns then
    Except.error RunnerInitError.missingIdColumn
  else if ¬ df.taxsimids.Nodup then Except.error RunnerInitError.duplicateIds
  else Except.ok df

/-! ## Stitched batch processing
(`runners/stitched_runner.py`, `StitchedRunner.run`, lines 31-77)

Rows are routed by tax year to one of two sub-runners, the result frames
concatenated, checked to carry exactly the input's taxsimids (the
`sorted(result_ids) != sorted(original_order)` guard — equality of sorted
integer lists is permutation), and re-sorted to the original taxsimid order
via `set_index("taxsimid").loc[original_order]`.  Failure paths (the raised
`ValueError`, an id missing during `.loc`) are `none`. -/

/-- An input record as the router reads it. -/
structure StitchRec where
  taxsimid : Int
  year : Int
deriving Repr, DecidableEq

/-- An output row, keyed by its carried taxsimid. -/
structure OutRow where
  taxsimid : Int
  payload : Int
deriving Repr, DecidableEq

/-- `result.set_index("taxsimid").loc[original_order]`: for each id in the
original order, the (unique, given distinct ids) result row carrying it;
a missing id raises (`none`). -/
def reindexById (order : List Int) (rows : List OutRow) :
    Option (List OutRow) :=
  match order with
  | [] => some []
  | i :: rest =>
      match rows.find? (fun r => r.taxsimid = i), reindexById rest rows with
      | some r, some out => some (r :: out)
      | _, _ => none

/-- `StitchedRunner.run` (`runners/stitched_runner.py` lines 31-77), with
the two sub-runners abstracted as functions from record lists to row lists:
route by `year >= pe_min_year`, run each sub-runner on its nonempty subset,
concatenate, guard that the output ids are a permutation of the input ids,
and restore original order. -/
def stitchedRun (peMinYear : Int)
    (peRunner taxsimRunner : List StitchRec → List OutRow)
    (input : List StitchRec) : Option (List OutRow) :=
  let peIn := input.filter (fun r => peMinYear ≤ r.year)
  let txIn := input.filter (fun r => !(peMinYear ≤ r.year : Bool))
  if peIn.isEmpty ∧ txIn.isEmpty then some []
  else
    let result := (if peIn.isEmpty then [] else peRunner peIn) ++
      (if txIn.isEmpty then [] else taxsimRunner txIn)
    let originalOrder := input.map (fun r => r.taxsimid)
    if (result.map (fun r => r.taxsimid)).Perm originalOrder then
      reindexById originalOrder result
    else
      none

/-! ## Theorems -/

/-- C8: the numeric-to-abbreviation translation is total and never raises:
every mapped code yields its abbreviation, every unmapped code — including
0 — yields the fixed default `"TX"`; likewise the compact-to-federal
(SOI-to-FIPS) translation yields the fixed default federal code 6 for every
unmapped input. -/
theorem state_code_registry_fallback :
    (∀ n : Int, STATE_MAPPING.lookup n = none → get_state_code n = "TX")
    ∧ get_state_code 0 = "TX"
    ∧ (∀ n : Int,
        (∃ s, STATE_MAPPING.lookup n = some s ∧ get_state_code n = s) ∨
          get_state_code n = "TX")
    ∧ (∀ n : Int, SOI_TO_FIPS_MAP.lookup n = none → soi_to_fips n = 6)
    ∧ (∀ n : Int,
        (∃ f, SOI_TO_FIPS_MAP.lookup n = some f ∧ soi_to_fips n = f) ∨
          soi_to_fips n = 6) := by
  refine ⟨fun n h => ?_, rfl, fun n => ?_, fun n h => ?_, fun n => ?_⟩
  · simp [get_state_code, h]
  · cases h : STATE_MAPPING.lookup n with
    | none => exact Or.inr (by simp [get_state_code, h])
    | some s => exact Or.inl ⟨s, rfl, by simp [get_state_code, h]⟩
  · simp [soi_to_fips, h]
  · cases h : SOI_TO_FIPS_MAP.lookup n with
    | none => exact Or.inr (by simp [soi_to_fips, h])
    | some f => exact Or.inl ⟨f, rfl, by simp [soi_to_fips, h]⟩

/-- Witness for C8: the unrecognized code 99 falls back to `"TX"` and to
federal code 6. -/
theorem state_code_registry_fallback_witness :
    get_state_code 99 = "TX" ∧ soi_to_fips 99 = 6 :=
  ⟨state_code_registry_fallback.1 99 rfl,
   state_code_registry_fallback.2.2.2.1 99 rfl⟩

/-- C2: evidence of the divergence between the two extraction paths.  The
single-record `simulate` (`core/output_mapper.py` lines 307-311) converts
EVERY exception — also one that is not a missing-variable condition — to
`0.00` instead of propagating it, while the vectorized extraction
(`runners/policyengine_runner.py` lines 1087-1098) zeroes only
missing-variable errors and re-raises everything else.  The claim (and spec
§4.6/§7(d)) requires the propagating behaviour on both paths. -/
theorem simulate_converts_engine_failures_to_zero :
    ∀ (msg : String) (n : Nat),
      simulate (Except.error (EngineError.other msg)) = 0
      ∧ extract_variable_vectorized n (Except.error (EngineError.other msg)) =
          Except.error (EngineError.other msg)
      ∧ extract_variable_vectorized n
          (Except.error (EngineError.doesNotExist msg)) =
          Except.ok (List.replicate n 0)
      ∧ simulate (Except.error (EngineError.doesNotExist msg)) = 0 :=
  fun _ _ => ⟨rfl, rfl, rfl, rfl⟩

/-- A married-filing-separately record (TAXSIM `mstat = 6`), no dependents —
the record on which the two construction paths disagree. -/
def mstat6Record : GraphVars := { mstat := 6, depx := 0 }

/-- C1: evidence that the Vectorized Batch Constructor is NOT equivalent to
concatenating the Entity Graph Builder's per-record outputs.  For a
one-record batch with `mstat = 6`, the vectorized path
(`np.isin(mstat, [2, 6])`, `runners/policyengine_runner.py` line 352)
creates a spouse person row — two person rows with household ids `[0, 0]` —
while `form_household_situation` (`core/input_mapper.py` lines 137-140,
spouse only when `mstat == 2`) builds a one-person graph. -/
theorem vectorized_diverges_from_graph_builder_on_mstat6 :
    vec_total_people [mstat6Record] = 2
    ∧ graph_concat_person_count 2021 "TX" [mstat6Record] = 1
    ∧ vec_person_household_ids [mstat6Record] = [0, 0]
    ∧ graph_concat_household_ids 2021 "TX" [mstat6Record] = [0]
    ∧ vec_total_people [mstat6Record] ≠
        graph_concat_person_count 2021 "TX" [mstat6Record]
    ∧ vec_person_household_ids [mstat6Record] ≠
        graph_concat_household_ids 2021 "TX" [mstat6Record] := by
  refine ⟨rfl, rfl, rfl, rfl, by decide, by decide⟩

/-- C10: the base-runner constructor validation raises exactly on an empty
input, a missing `taxsimid` column, or duplicated `taxsimid` values — and
otherwise hands the frame to the runner unchanged, so processing never
starts on a batch violating the identifier-uniqueness invariant. -/
theorem initRunner_rejects_exactly_invalid_inputs (df : InputFrame) :
    ((∃ e, initRunner df = Except.error e) ↔
      (df.rows = [] ∨ "taxsimid" ∉ df.columns ∨ ¬ df.taxsimids.Nodup))
    ∧ (initRunner df = Except.ok df ↔
      (df.rows ≠ [] ∧ "taxsimid" ∈ df.columns ∧ df.taxsimids.Nodup)) := by
  unfold initRunner
  split_ifs with h1 h2 h3 <;>
    simp_all [List.length_eq_zero]

/-- The people of the built situation are named exactly
`coupleMembers ++ dependentNames` — the membership list assigned to every
grouping entity. -/
theorem people_map_name (year : Int) (state : String) (tv : GraphVars) :
    (form_household_situation year state tv).people.map (fun p => p.name) =
      coupleMembers tv.mstat ++ dependentNames tv.depx := by
  simp only [form_household_situation, coupleMembers, dependentNames,
    List.map_append, List.map_map]
  split_ifs <;> simp [Function.comp]

/-- C3: for every valid flat record (non-negative dependent count), the
built entity graph contains exactly `1 + (1 if joint else 0) + depx`
persons, and each of the four grouping entities — family, household,
tax-unit, and assistance (SPM) unit — has exactly the person list as its
membership list. -/
theorem form_household_situation_person_count (year : Int) (state : String)
    (tv : GraphVars) (hdep : 0 ≤ tv.depx) :
    (form_household_situation year state tv).people.length =
      1 + (if tv.mstat = 2 then 1 else 0) + tv.depx.toNat
    ∧ ((form_household_situation year state tv).people.length : Int) =
      1 + (if tv.mstat = 2 then 1 else 0) + tv.depx
    ∧ (form_household_situation year state tv).familiesMembers =
      (form_household_situation year state tv).people.map (fun p => p.name)
    ∧ (form_household_situation year state tv).householdsMembers =
      (form_household_situation year state tv).people.map (fun p => p.name)
    ∧ (form_household_situation year state tv).taxUnitsMembers =
      (form_household_situation year state tv).people.map (fun p => p.name)
    ∧ (form_household_situation year state tv).spmUnitsMembers =
      (form_household_situation year state tv).people.map (fun p => p.name) := by
  have hlen : (form_household_situation year state tv).people.length =
      1 + (if tv.mstat = 2 then 1 else 0) + tv.depx.toNat := by
    simp only [form_household_situation, List.length_append, List.length_map,
      List.length_range]
    split_ifs <;> simp
  refine ⟨hlen, ?_, ?_, ?_, ?_, ?_⟩
  · rw [hlen]; push_cast [Int.toNat_of_nonneg hdep]; split_ifs <;> push_cast <;> ring
  all_goals rw [people_map_name]; rfl

/-- Witness for C3: a joint filer with two dependents yields a four-person
graph whose grouping entities all list those four people. -/
theorem form_household_situation_person_count_witness :
    (form_household_situation 2021 "CA"
      { mstat := 2, depx := 2 }).people.length = 4
    ∧ (form_household_situation 2021 "CA"
        { mstat := 2, depx := 2 }).taxUnitsMembers =
      (form_household_situation 2021 "CA"
        { mstat := 2, depx := 2 }).people.map (fun p => p.name) := by
  have h := form_household_situation_person_count 2021 "CA"
    { mstat := 2, depx := 2 } (by decide)
  exact ⟨h.1.trans (by decide), h.2.2.2.2.1⟩

/-- C4: marital-unit structure of the built graph.  With zero dependents
there is exactly one marital unit, holding the primary (and the spouse for a
joint filer).  With `depx > 0` there are `1 + depx` units: the primary
couple's unit first, then one singleton unit per dependent, the `k`-th
carrying `marital_unit_id = k` — all identifiers distinct. -/
theorem marital_unit_structure (year : Int) (state : String)
    (tv : GraphVars) :
    (tv.depx = 0 →
      (form_household_situation year state tv).maritalUnits =
        [{ name := MaritalUnitName.primaryUnit,
           members := coupleMembers tv.mstat, marital_unit_id := none }])
    ∧ (0 < tv.depx →
        (form_household_situation year state tv).maritalUnits.length =
          1 + tv.depx.toNat
        ∧ (form_household_situation year state tv).maritalUnits.head? =
          some { name := MaritalUnitName.primaryUnit,
                 members := coupleMembers tv.mstat, marital_unit_id := none }
        ∧ (∀ k, k < tv.depx.toNat →
            (form_household_situation year state tv).maritalUnits.get? (k + 1)
              = some { name := MaritalUnitName.dependentUnit (depName (k + 1)),
                       members := [depName (k + 1)],
                       marital_unit_id := some ((k : Int) + 1) })
        ∧ ((form_household_situation year state tv).maritalUnits.map
            (fun mu => mu.marital_unit_id)).Nodup) := by
  constructor
  · intro h0
    simp [form_household_situation, h0]
  · intro hpos
    have hif : (0 < tv.depx) = True := by simp [hpos]
    refine ⟨?_, ?_, ?_, ?_⟩
    · simp [form_household_situation, hif]; omega
    · simp [form_household_situation, hif]
    · intro k hk
      simp only [form_household_situation, hif, if_true]
      rw [List.get?_cons_succ, List.get?_map, List.get?_range hk]
      rfl
    · simp only [form_household_situation, hif, if_true, List.map_cons,
        List.map_map]
      refine List.nodup_cons.2 ⟨?_, ?_⟩
      · simp [Function.comp]
      · refine List.Nodup.map ?_ (List.nodup_range _)
        intro a b hab
        simp only [Function.comp, Option.some.injEq] at hab
        omega

/-- Witness for C4: joint filer with two dependents — three marital units:
the couple's pair unit, then singleton units with ids 1 and 2. -/
theorem marital_unit_structure_witness :
    (form_household_situation 2021 "CA"
      { mstat := 2, depx := 2 }).maritalUnits.length = 3
    ∧ (form_household_situation 2021 "CA"
        { mstat := 2, depx := 2 }).maritalUnits.head? =
      some { name := MaritalUnitName.primaryUnit,
             members := ["you", "your partner"], marital_unit_id := none } := by
  have h := (marital_unit_structure 2021 "CA" { mstat := 2, depx := 2 }).2
    (by decide)
  refine ⟨h.1.trans (by decide), h.2.1.trans ?_⟩
  decide

/-- Looking up a field just written by `setField` yields the written value. -/
theorem lookup_setField (l : List (String × Rat)) (k : String) (v : Rat) :
    (setField l k v).lookup k = some v := by
  induction l with
  | nil => simp [setField, List.lookup]
  | cons hd tl ih =>
    obtain ⟨k0, v0⟩ := hd
    by_cases h : k0 = k
    · subst h; simp [setField, List.lookup]
    · simp only [setField, if_neg h, List.lookup]
      have : (k == k0) = false := by simp [Ne.symm h]
      rw [this]
      exact ih

/-- `applyIncomeEntry` on a single-source catalog entry whose field is not
one of the two specially-handled ones reduces to the split-or-assign step of
`core/input_mapper.py` lines 109-122. -/
theorem applyIncomeEntry_single (mstat : Int) (tv : List (String × Rat))
    (field src : String) (s : PeopleIncome)
    (hne1 : field ≠ "self_employment_income")
    (hne2 : field ≠ "unemployment_compensation") :
    applyIncomeEntry mstat tv field [src] s =
      (match tv.lookup src with
      | some total =>
          if mstat = 2 ∧ s.partner.isSome ∧ field ∈ income_types_to_split then
            (s.setYou field (total / 2)).setPartner field (total / 2)
          else s.setYou field total
      | none => s) := by
  simp only [applyIncomeEntry]
  rw [if_neg (by simp), if_neg hne1, if_neg hne2, if_neg (by simp)]

/-- C5: the income-splitting rule.  For a catalog entry in the splittable
set whose single flat-schema source is present with amount `amt`: a joint
filer (`mstat = 2`) with a spouse present gets `amt / 2` assigned to the
primary and `amt / 2` to the spouse; a non-joint filer gets the full `amt`
assigned to the primary with the spouse untouched. -/
theorem income_splitting (mstat : Int) (tv : List (String × Rat))
    (field src : String) (amt : Rat) (s : PeopleIncome)
    (hfield : field ∈ income_types_to_split)
    (hsrc : tv.lookup src = some amt) :
    (mstat = 2 → s.partner.isSome →
      ((applyIncomeEntry mstat tv field [src] s).you.lookup field =
        some (amt / 2)
      ∧ ∃ p, (applyIncomeEntry mstat tv field [src] s).partner = some p
          ∧ p.lookup field = some (amt / 2)))
    ∧ (mstat ≠ 2 →
      ((applyIncomeEntry mstat tv field [src] s).you.lookup field = some amt
      ∧ (applyIncomeEntry mstat tv field [src] s).partner = s.partner)) := by
  have hne1 : field ≠ "self_employment_income" := by
    rintro rfl; exact absurd hfield (by decide)
  have hne2 : field ≠ "unemployment_compensation" := by
    rintro rfl; exact absurd hfield (by decide)
  rw [applyIncomeEntry_single mstat tv field src s hne1 hne2, hsrc]
  dsimp only
  constructor
  · intro hm hp
    obtain ⟨p0, hp0⟩ := Option.isSome_iff_exists.mp hp
    rw [if_pos ⟨hm, hp, hfield⟩]
    refine ⟨?_, setField p0 field (amt / 2), ?_, lookup_setField _ _ _⟩
    · simp [PeopleIncome.setPartner, PeopleIncome.setYou, lookup_setField]
    · simp [PeopleIncome.setPartner, PeopleIncome.setYou, hp0]
  · intro hm
    rw [if_neg (fun hc => hm hc.1)]
    exact ⟨lookup_setField _ _ _, rfl⟩

/-- Witness for C5: interest of 100 reported for a joint filer with spouse
present is assigned 50/50; for a single filer it goes entirely to the
primary. -/
theorem income_splitting_witness :
    ((applyIncomeEntry 2 [("intrec", 100)] "taxable_interest_income"
        ["intrec"] { you := [], partner := some [] }).you.lookup
      "taxable_interest_income" = some 50)
    ∧ ((applyIncomeEntry 1 [("intrec", 100)] "taxable_interest_income"
        ["intrec"] { you := [], partner := none }).you.lookup
      "taxable_interest_income" = some 100) := by
  have hj := (income_splitting 2 [("intrec", 100)] "taxable_interest_income"
    "intrec" 100 { you := [], partner := some [] } (by decide) rfl).1 rfl rfl
  have hs := (income_splitting 1 [("intrec", 100)] "taxable_interest_income"
    "intrec" 100 { you := [], partner := none } (by decide) rfl).2 (by decide)
  exact ⟨hj.1.trans (by norm_num), hs.1⟩

/-- Shape of a conversion run whose derivation condition holds. -/
theorem convert32_eq_of_cond (v : Dep32Vars)
    (h : (hasTaxsim32Fields v && !hasIndividualAgeFields v) = true) :
    convert_taxsim32_dependents v =
      { v with depx := some (max (v.depx.getD 0) (depVal v.dep18)),
               ages := (writeAges v.ages (convertVals v)).map normAge } := by
  simp only [convert_taxsim32_dependents, h, if_true]

/-- Shape of a conversion run whose derivation condition fails: only the
0-to-10 normalization runs. -/
theorem convert32_eq_of_not_cond (v : Dep32Vars)
    (h : (hasTaxsim32Fields v && !hasIndividualAgeFields v) = false) :
    convert_taxsim32_dependents v = { v with ages := v.ages.map normAge } := by
  simp only [convert_taxsim32_dependents, h, if_false, Bool.false_eq_true]

/-- Writing a value sequence into all-absent age slots fills a prefix and
leaves the remaining slots absent. -/
theorem writeAges_replicate_none (n : Nat) (vals : List Int) :
    writeAges (List.replicate n none) vals =
      (vals.take n).map some ++ List.replicate (n - vals.length) none := by
  induction n generalizing vals with
  | zero => cases vals <;> simp [writeAges]
  | succ m ih =>
    cases vals with
    | nil => simp [writeAges, List.replicate_succ]
    | cons x xs =>
      have harith : m + 1 - (xs.length + 1) = m - xs.length := by omega
      simp only [List.replicate_succ, writeAges, List.take_succ_cons,
        List.map_cons, List.length_cons, List.cons_append, ih, harith]

/-- Normalization fixes a filled-prefix age list whose values are all
nonzero. -/
theorem map_normAge_filled (vals : List Int) (k : Nat)
    (h : ∀ x ∈ vals, x ≠ 0) :
    (vals.map some ++ List.replicate k none).map normAge =
      vals.map some ++ List.replicate k none := by
  rw [List.map_append, List.map_map, List.map_replicate]
  have h2 : List.replicate k (normAge none) = List.replicate k none := rfl
  rw [h2]
  congr 1
  refine List.map_congr_left ?_
  intro x hx
  simp [normAge, Function.comp, h x hx]

/-- Every derived bracket age is 10, 15, 17 or 21 — never 0. -/
theorem bracketAgeList_ne_zero (a b c d : Nat) :
    ∀ x ∈ bracketAgeList a b c d, x ≠ 0 := by
  intro x hx
  simp only [bracketAgeList, List.mem_append, List.mem_replicate] at hx
  rcases hx with ((⟨_, rfl⟩ | ⟨_, rfl⟩) | ⟨_, rfl⟩) | ⟨_, rfl⟩ <;> decide

/-- C6: the legacy bracket-count derivation.  For a record carrying the
three cumulative counts (monotone, within the 11-dependent schema bound)
and no individual dependent ages, the conversion assigns, in order,
`dep13` ages of 10, `dep17 − dep13` ages of 15, `dep18 − dep17` ages of 17,
and `depx − dep18` ages of 21 (the configured adult-dependent age); the
remaining slots stay absent, and `depx` is raised to at least `dep18`. -/
theorem convert32_bracket_ages (v : Dep32Vars) (d13 d17 d18 dx : Int)
    (h13 : v.dep13 = some (some d13)) (h17 : v.dep17 = some (some d17))
    (h18 : v.dep18 = some (some d18)) (hdx : v.depx = some dx)
    (hages : v.ages = List.replicate 11 none)
    (h0 : 0 ≤ d13) (hm1 : d13 ≤ d17) (hm2 : d17 ≤ d18)
    (hcap : (max dx d18).toNat ≤ 11) :
    (convert_taxsim32_dependents v).ages =
      (bracketAgeList d13.toNat (d17 - d13).toNat (d18 - d17).toNat
        (dx - d18).toNat).map some
      ++ List.replicate (11 - (max dx d18).toNat) none
    ∧ (convert_taxsim32_dependents v).depx = some (max dx d18) := by
  have hcond : (hasTaxsim32Fields v && !hasIndividualAgeFields v) = true := by
    simp only [hasTaxsim32Fields, hasIndividualAgeFields, h13, hages,
      Option.isSome_some, Bool.true_or, Bool.true_and, Bool.not_eq_true_eq_eq_false]
    rw [List.any_eq_false]
    intro a ha
    rw [List.eq_of_mem_replicate ha]
    simp
  have hvals : convertVals v =
      bracketAgeList d13.toNat (d17 - d13).toNat (d18 - d17).toNat
        (dx - d18).toNat := by
    have hlen : (bracketAgeList d13.toNat (d17 - d13).toNat (d18 - d17).toNat
        (dx - d18).toNat).length = (max dx d18).toNat := by
      simp only [bracketAgeList, List.length_append, List.length_replicate]
      omega
    simp only [convertVals, h13, h17, h18, hdx, depVal, Option.join,
      Option.getD_some]
    exact List.take_of_length_le (le_of_eq_of_le hlen hcap)
  rw [convert32_eq_of_cond v hcond]
  constructor
  · have hlen2 : (bracketAgeList d13.toNat (d17 - d13).toNat
        (d18 - d17).toNat (dx - d18).toNat).length = (max dx d18).toNat := by
      simp only [bracketAgeList, List.length_append, List.length_replicate]
      omega
    show (writeAges v.ages (convertVals v)).map normAge = _
    rw [hvals, hages, writeAges_replicate_none,
      List.take_of_length_le (le_of_eq_of_le hlen2 hcap), hlen2]
    exact map_normAge_filled _ _ (bracketAgeList_ne_zero _ _ _ _)
  · show some (max (v.depx.getD 0) (depVal v.dep18)) = some (max dx d18)
    rw [hdx, h18]
    rfl

/-- Witness for C6: cumulative counts 1, 2, 3 with 3 dependents derive the
ages [10, 15, 17] in order. -/
theorem convert32_bracket_ages_witness :
    (convert_taxsim32_dependents
      { dep13 := some (some 1), dep17 := some (some 2),
        dep18 := some (some 3), depx := some 3 }).ages =
      [some 10, some 15, some 17] ++ List.replicate 8 none := by
  have h := (convert32_bracket_ages
    { dep13 := some (some 1), dep17 := some (some 2),
      dep18 := some (some 3), depx := some 3 } 1 2 3 3
    rfl rfl rfl rfl rfl (by decide) (by decide) (by decide) (by decide)).1
  exact h.trans (by decide)

/-- Normalization is idempotent on a single slot. -/
theorem normAge_normAge (a : Option Int) : normAge (normAge a) = normAge a := by
  cases a with
  | none => rfl
  | some x => by_cases hx : x = 0 <;> simp [normAge, hx]

/-- Normalization preserves slot presence. -/
theorem normAge_isSome (a : Option Int) : (normAge a).isSome = a.isSome := by
  cases a with
  | none => rfl
  | some x => by_cases hx : x = 0 <;> simp [normAge, hx]

/-- Normalization is idempotent on an age list. -/
theorem map_normAge_idem (l : List (Option Int)) :
    (l.map normAge).map normAge = l.map normAge := by
  rw [List.map_map]
  refine List.map_congr_left ?_
  intro a _
  exact normAge_normAge a

/-- Normalizing does not change which slots are present. -/
theorem any_isSome_map_normAge (l : List (Option Int)) :
    (l.map normAge).any (fun a => a.isSome) = l.any (fun a => a.isSome) := by
  induction l with
  | nil => rfl
  | cons a as ih => simp [List.any_cons, ih, normAge_isSome]

/-- An all-absent age list is fixed by normalization. -/
theorem map_normAge_of_all_none (l : List (Option Int))
    (h : l.any (fun a => a.isSome) = false) : l.map normAge = l := by
  induction l with
  | nil => rfl
  | cons a as ih =>
    simp only [List.any_cons, Bool.or_eq_false_iff] at h
    cases a with
    | some x => simp at h
    | none => simp [normAge, ih h.2]

/-- Writing nothing changes nothing. -/
theorem writeAges_nil_right (l : List (Option Int)) : writeAges l [] = l := by
  cases l <;> rfl

/-- If writing a value sequence into a nonempty slot list leaves every slot
absent, the sequence was empty. -/
theorem writeAges_any_false (l : List (Option Int)) (vals : List Int)
    (hl : l ≠ [])
    (h : (writeAges l vals).any (fun a => a.isSome) = false) : vals = [] := by
  cases l with
  | nil => exact absurd rfl hl
  | cons a as =>
    cases vals with
    | nil => rfl
    | cons x xs => simp [writeAges] at h

/-- An empty derived-value sequence stays empty after the conversion's
`depx := max(depx, dep18)` update (only the adult-dependent count depends on
`depx`, and it stays zero). -/
theorem convertVals_nil_shift (p13 p17 p18 : Option (Option Int))
    (px : Option Int) (ags ags2 : List (Option Int))
    (h : convertVals ⟨p13, p17, p18, px, ags⟩ = []) :
    convertVals
      ⟨p13, p17, p18, some (max (px.getD 0) (depVal p18)), ags2⟩ = [] := by
  simp only [convertVals, bracketAgeList] at h ⊢
  rw [List.take_eq_nil_iff] at h ⊢
  rcases h with h | h
  · exact absurd h (by decide)
  · right
    simp only [List.append_eq_nil, List.replicate_eq_nil_iff] at h
    obtain ⟨⟨⟨h1, h2⟩, h3⟩, h4⟩ := h
    have hle : px.getD 0 ≤ depVal p18 := by omega
    simp only [List.append_eq_nil, List.replicate_eq_nil_iff, Option.getD_some]
    rw [max_eq_right hle]
    exact ⟨⟨⟨h1, h2⟩, h3⟩, by omega⟩

/-- C7: the legacy conversion is idempotent — applying it twice yields the
same record (in particular the same individual dependent ages) as applying
it once — and when individual age fields are already present the
bracket-count derivation is skipped entirely: only the 0-to-10
normalization runs. -/
theorem convert32_idempotent (v : Dep32Vars) (hlen : v.ages.length = 11) :
    convert_taxsim32_dependents (convert_taxsim32_dependents v) =
      convert_taxsim32_dependents v
    ∧ (hasIndividualAgeFields v = true →
        convert_taxsim32_dependents v = { v with ages := v.ages.map normAge }) := by
  obtain ⟨p13, p17, p18, px, ags⟩ := v
  constructor
  · by_cases hc : (hasTaxsim32Fields ⟨p13, p17, p18, px, ags⟩ &&
        !hasIndividualAgeFields ⟨p13, p17, p18, px, ags⟩) = true
    · have hTI := hc
      rw [Bool.and_eq_true] at hTI
      have hT : hasTaxsim32Fields ⟨p13, p17, p18, px, ags⟩ = true := hTI.1
      have hI : hasIndividualAgeFields ⟨p13, p17, p18, px, ags⟩ = false := by
        simpa using hTI.2
      rw [convert32_eq_of_cond _ hc]
      by_cases hs : ((writeAges ags
          (convertVals ⟨p13, p17, p18, px, ags⟩)).any fun a => a.isSome) = true
      · -- a slot was filled: the second run only re-normalizes
        have hc2 : (hasTaxsim32Fields
              ⟨p13, p17, p18, some (max (px.getD 0) (depVal p18)),
                (writeAges ags
                  (convertVals ⟨p13, p17, p18, px, ags⟩)).map normAge⟩ &&
            !hasIndividualAgeFields
              ⟨p13, p17, p18, some (max (px.getD 0) (depVal p18)),
                (writeAges ags
                  (convertVals ⟨p13, p17, p18, px, ags⟩)).map normAge⟩) =
            false := by
          have hI2 : hasIndividualAgeFields
              ⟨p13, p17, p18, some (max (px.getD 0) (depVal p18)),
                (writeAges ags
                  (convertVals ⟨p13, p17, p18, px, ags⟩)).map normAge⟩ =
              true := by
            show ((writeAges ags
              (convertVals ⟨p13, p17, p18, px, ags⟩)).map normAge).any
                (fun a => a.isSome) = true
            rw [any_isSome_map_normAge]
            exact hs
          rw [hI2]
          simp
        rw [convert32_eq_of_not_cond _ hc2]
        show (⟨p13, p17, p18, some (max (px.getD 0) (depVal p18)),
          ((writeAges ags
            (convertVals ⟨p13, p17, p18, px, ags⟩)).map normAge).map normAge⟩ :
              Dep32Vars) = _
        rw [map_normAge_idem]
      · -- no slot was filled: the derivation was vacuous and reruns vacuously
        have hsf : ((writeAges ags
            (convertVals ⟨p13, p17, p18, px, ags⟩)).any fun a => a.isSome) =
            false := Bool.eq_false_iff.mpr hs
        have hags_ne : ags ≠ [] := by
          intro hnil
          rw [hnil] at hlen
          simp at hlen
        have hvals_nil : convertVals ⟨p13, p17, p18, px, ags⟩ = [] :=
          writeAges_any_false ags _ hags_ne hsf
        have hW : writeAges ags (convertVals ⟨p13, p17, p18, px, ags⟩) = ags := by
          rw [hvals_nil]
          exact writeAges_nil_right ags
        have hagsI : ags.any (fun a => a.isSome) = false := hI
        have hagsfix : ags.map normAge = ags := map_normAge_of_all_none ags hagsI
        rw [hW, hagsfix]
        -- the intermediate record now differs from the input only in depx
        have hc2 : (hasTaxsim32Fields
              ⟨p13, p17, p18, some (max (px.getD 0) (depVal p18)), ags⟩ &&
            !hasIndividualAgeFields
              ⟨p13, p17, p18, some (max (px.getD 0) (depVal p18)), ags⟩) =
            true := by
          have hT2 : hasTaxsim32Fields
              ⟨p13, p17, p18, some (max (px.getD 0) (depVal p18)), ags⟩ =
              true := hT
          have hI2 : hasIndividualAgeFields
              ⟨p13, p17, p18, some (max (px.getD 0) (depVal p18)), ags⟩ =
              false := hagsI
          rw [hT2, hI2]
          rfl
        rw [convert32_eq_of_cond _ hc2]
        have hvals2 : convertVals
            ⟨p13, p17, p18, some (max (px.getD 0) (depVal p18)), ags⟩ = [] :=
          convertVals_nil_shift p13 p17 p18 px ags ags hvals_nil
        show (⟨p13, p17, p18,
          some (max ((some (max (px.getD 0) (depVal p18))).getD 0) (depVal p18)),
          (writeAges ags (convertVals
            ⟨p13, p17, p18, some (max (px.getD 0) (depVal p18)), ags⟩)).map
              normAge⟩ : Dep32Vars) = _
        rw [hvals2, writeAges_nil_right, hagsfix, Option.getD_some,
          max_assoc, max_self]
    · -- derivation skipped: both runs only normalize
      have hcf : (hasTaxsim32Fields ⟨p13, p17, p18, px, ags⟩ &&
          !hasIndividualAgeFields ⟨p13, p17, p18, px, ags⟩) = false :=
        Bool.eq_false_iff.mpr hc
      rw [convert32_eq_of_not_cond _ hcf]
      have hcf2 : (hasTaxsim32Fields ⟨p13, p17, p18, px, ags.map normAge⟩ &&
          !hasIndividualAgeFields ⟨p13, p17, p18, px, ags.map normAge⟩) =
          false := by
        have hIe : hasIndividualAgeFields ⟨p13, p17, p18, px, ags.map normAge⟩ =
            hasIndividualAgeFields ⟨p13, p17, p18, px, ags⟩ :=
          any_isSome_map_normAge ags
        simp only [hasTaxsim32Fields, hasIndividualAgeFields] at hcf hIe ⊢
        rw [hIe]
        exact hcf
      rw [convert32_eq_of_not_cond _ hcf2]
      show (⟨p13, p17, p18, px, (ags.map normAge).map normAge⟩ : Dep32Vars) = _
      rw [map_normAge_idem]
  · intro hi
    apply convert32_eq_of_not_cond
    rw [hi]
    simp

/-- Witness for C7: a record already carrying an individual age (`age1 = 7`)
alongside bracket counts is not re-derived — only normalized — and the
conversion is idempotent on it. -/
theorem convert32_idempotent_witness :
    convert_taxsim32_dependents (convert_taxsim32_dependents
      { dep13 := some (some 1), depx := some 1,
        ages := some 7 :: List.replicate 10 none }) =
      convert_taxsim32_dependents
        { dep13 := some (some 1), depx := some 1,
          ages := some 7 :: List.replicate 10 none }
    ∧ convert_taxsim32_dependents
        { dep13 := some (some 1), depx := some 1,
          ages := some 7 :: List.replicate 10 none } =
      { dep13 := some (some 1), depx := some 1,
        ages := (some 7 :: List.replicate 10 none).map normAge } := by
  have h := convert32_idempotent
    { dep13 := some (some 1), depx := some 1,
      ages := some 7 :: List.replicate 10 none } (by decide)
  exact ⟨h.1, h.2 (by decide)⟩

/-- Re-indexing succeeds and returns rows in exactly the requested id order
whenever every requested id is carried by some row. -/
theorem reindexById_spec (order : List Int) (rows : List OutRow)
    (h : ∀ i ∈ order, ∃ r ∈ rows, r.taxsimid = i) :
    ∃ out, reindexById order rows = some out ∧
      out.map (fun r => r.taxsimid) = order := by
  induction order with
  | nil => exact ⟨[], rfl, rfl⟩
  | cons i os ih =>
    obtain ⟨r0, hr0, hid0⟩ := h i (List.mem_cons_self i os)
    have hsome : (rows.find? (fun r => r.taxsimid = i)).isSome = true :=
      List.find?_isSome.mpr ⟨r0, hr0, by simp [hid0]⟩
    obtain ⟨r1, hr1⟩ := Option.isSome_iff_exists.mp hsome
    have hid1 : r1.taxsimid = i := by simpa using List.find?_some hr1
    obtain ⟨out, hout, hmap⟩ := ih (fun j hj => h j (List.mem_cons_of_mem i hj))
    refine ⟨r1 :: out, ?_, ?_⟩
    · simp only [reindexById, hr1, hout]
    · simp [hid1, hmap]

/-- C9: order preservation of the stitched runner.  For any input batch
whose identifiers are distinct, provided each sub-runner returns exactly the
taxsimids of its routed subset (in any order), the stitched run succeeds and
returns rows whose taxsimid sequence is exactly the input's, i.e. the rows
are in the original input order. -/
theorem stitched_order_preservation (peMinYear : Int)
    (peRunner taxsimRunner : List StitchRec → List OutRow)
    (input : List StitchRec)
    (hids : (input.map (fun r => r.taxsimid)).Nodup)
    (hpe : ((peRunner (input.filter (fun r => peMinYear ≤ r.year))).map
        (fun r => r.taxsimid)).Perm
        ((input.filter (fun r => peMinYear ≤ r.year)).map
          (fun r => r.taxsimid)))
    (htx : ((taxsimRunner (input.filter
          (fun r => !(peMinYear ≤ r.year : Bool)))).map
        (fun r => r.taxsimid)).Perm
        ((input.filter (fun r => !(peMinYear ≤ r.year : Bool))).map
          (fun r => r.taxsimid))) :
    ∃ rows, stitchedRun peMinYear peRunner taxsimRunner input = some rows ∧
      rows.map (fun r => r.taxsimid) = input.map (fun r => r.taxsimid) := by
  have hsplit : (input.filter (fun r => peMinYear ≤ r.year) ++
      input.filter (fun r => !(peMinYear ≤ r.year : Bool))).Perm input :=
    List.filter_append_perm _ input
  have hfst : ((if (input.filter (fun r => peMinYear ≤ r.year)).isEmpty
        then []
        else peRunner (input.filter (fun r => peMinYear ≤ r.year))).map
        (fun r => r.taxsimid)).Perm
      ((input.filter (fun r => peMinYear ≤ r.year)).map
        (fun r => r.taxsimid)) := by
    split_ifs with he
    · rw [List.isEmpty_iff.mp he]
      exact List.Perm.refl _
    · exact hpe
  have hsnd : ((if (input.filter
          (fun r => !(peMinYear ≤ r.year : Bool))).isEmpty
        then []
        else taxsimRunner (input.filter
          (fun r => !(peMinYear ≤ r.year : Bool)))).map
        (fun r => r.taxsimid)).Perm
      ((input.filter (fun r => !(peMinYear ≤ r.year : Bool))).map
        (fun r => r.taxsimid)) := by
    split_ifs with he
    · rw [List.isEmpty_iff.mp he]
      exact List.Perm.refl _
    · exact htx
  have hresult : (((if (input.filter (fun r => peMinYear ≤ r.year)).isEmpty
        then []
        else peRunner (input.filter (fun r => peMinYear ≤ r.year))) ++
      (if (input.filter (fun r => !(peMinYear ≤ r.year : Bool))).isEmpty
        then []
        else taxsimRunner (input.filter
          (fun r => !(peMinYear ≤ r.year : Bool))))).map
        (fun r => r.taxsimid)).Perm
      (input.map (fun r => r.taxsimid)) := by
    rw [List.map_append]
    refine (hfst.append hsnd).trans ?_
    rw [← List.map_append]
    exact hsplit.map _
  by_cases hboth : (input.filter (fun r => peMinYear ≤ r.year)).isEmpty ∧
      (input.filter (fun r => !(peMinYear ≤ r.year : Bool))).isEmpty
  · have hnil : input = [] := by
      refine List.Perm.eq_nil (hsplit.symm.trans ?_)
      rw [List.isEmpty_iff.mp hboth.1, List.isEmpty_iff.mp hboth.2]
      simp
    subst hnil
    exact ⟨[], by simp [stitchedRun], rfl⟩
  · have hmem : ∀ i ∈ input.map (fun r => r.taxsimid),
        ∃ r ∈ ((if (input.filter (fun r => peMinYear ≤ r.year)).isEmpty
            then []
            else peRunner (input.filter (fun r => peMinYear ≤ r.year))) ++
          (if (input.filter (fun r => !(peMinYear ≤ r.year : Bool))).isEmpty
            then []
            else taxsimRunner (input.filter
              (fun r => !(peMinYear ≤ r.year : Bool))))),
          r.taxsimid = i := by
      intro i hi
      have hmem2 := hresult.mem_iff.mpr hi
      obtain ⟨r, hr, hrid⟩ := List.mem_map.mp hmem2
      exact ⟨r, hr, hrid⟩
    obtain ⟨out, hout, hmap⟩ := reindexById_spec _ _ hmem
    refine ⟨out, ?_, hmap⟩
    simp only [stitchedRun]
    rw [if_neg hboth, if_pos hresult]
    exact hout

/-- Witness for C9: three records with distinct ids and mixed years, two
order-reversing sub-runners — the stitched run restores the input id order
[10, 20, 30]. -/
theorem stitched_order_preservation_witness :
    ∃ rows, stitchedRun 2021
        (fun l => (l.map (fun r => OutRow.mk r.taxsimid r.year)).reverse)
        (fun l => (l.map (fun r => OutRow.mk r.taxsimid 0)).reverse)
        [{ taxsimid := 10, year := 2021 }, { taxsimid := 20, year := 2019 },
         { taxsimid := 30, year := 2022 }] = some rows ∧
      rows.map (fun r => r.taxsimid) =
        ([{ taxsimid := 10, year := 2021 }, { taxsimid := 20, year := 2019 },
          { taxsimid := 30, year := 2022 }] : List StitchRec).map
          (fun r => r.taxsimid) :=
  stitched_order_preservation 2021 _ _ _ (by decide) (by decide) (by decide)

end PETaxsim
